import Mathlib

/-!
Package `logp`: the resolution of the logging policy (`src/logp.go`).

A shallow embedding of `getLogLevel`, `HandleFlags`, `Init` and `SetStderr` of package `logp`.

Conventions of the embedding.

* A Go `string` is a Lean `String`: the model covers the strings that are valid UTF-8.
  `len(s)` is the number of bytes, `String.utf8ByteSize`.
* A Go pointer `*T` is an `Option T` (`none` is `nil`); aliasing is not modelled.
  Dereferencing `nil` panics: a function that can panic returns `Option`, and `none` is the
  panic.
* A slice `[]string` is a `List String`; a `nil` slice and an empty one are both `[]`
  (the source only observes `len`).
* A Go `error` is its message.
* A function returning `(T, error)` returns the pair, the error being `none` for `nil`.
-/

namespace logp

/-! ## Standard library: `unicode.ToLower`, `strings.ToLower`, `strings.Split`, `len` -/

/-- Go `len(s)` for a string: its length in bytes. -/
def len (s : String) : Nat := s.utf8ByteSize

/-- Go `unicode.ToLower`. For `r <= unicode.MaxASCII` the letters `A`..`Z` are moved by
`'a' - 'A'` and every other rune is returned as is. Above ASCII Go consults
`unicode.CaseRanges`; the two entries of that table whose lower case is an ASCII letter are
`U+0130` (delta -199, giving `i`) and `U+212A` (delta -8383, giving `k`). Every other rune
above ASCII has a lower case above ASCII, and is left as it is here: the model is exact on
which strings lower-case to an ASCII string, and on ASCII strings. -/
def unicode_ToLower (r : Char) : Char :=
  if r.toNat ≤ 0x7F then
    if 0x41 ≤ r.toNat ∧ r.toNat ≤ 0x5A then Char.ofNat (r.toNat + 0x20) else r
  else if r.toNat = 0x130 then Char.ofNat (0x130 - 199)
  else if r.toNat = 0x212A then Char.ofNat (0x212A - 8383)
  else r

/-- Go `strings.ToLower`: on valid UTF-8 it is `strings.Map(unicode.ToLower, s)`, rune by
rune (the ASCII fast path computes the same string). -/
def strings_ToLower (s : String) : String := String.mk (s.data.map unicode_ToLower)

/-- The scan of `strings.Split` for a one-byte separator: `cur` holds, reversed, the runes
of the field being read. -/
def splitRunes (sep : Char) : List Char → List Char → List String
  | [], cur => [String.mk cur.reverse]
  | c :: cs, cur =>
    if c = sep then String.mk cur.reverse :: splitRunes sep cs []
    else splitRunes sep cs (c :: cur)

/-- Go `strings.Split(s, sep)` for a separator of one ASCII byte (the source only splits at
`","`): the fields between the separators, empty fields included; `Split("", ",")` is
`[""]`. -/
def strings_Split (s : String) (sep : Char) : List String := splitRunes sep s.data []

/-! ## Data model -/

/-- Go `error`: the message. -/
abbrev Error := String

/-- Go `type Priority int`. -/
abbrev Priority := Int

/-- Modelled from the spec: the constant `LOG_CRIT` is declared outside `src/`. The spec
gives the severities as "an ordered enum {CRITICAL, ERROR, WARNING, INFO, DEBUG}, increasing
verbosity"; the numbers are those `syslog.h` gives the names, and the theorems use of them
only that the five are different. -/
def LOG_CRIT : Priority := 2

/-- Modelled from the spec: the constant `LOG_ERR` is declared outside `src/`
(see `LOG_CRIT`). -/
def LOG_ERR : Priority := 3

/-- Modelled from the spec: the constant `LOG_WARNING` is declared outside `src/`
(see `LOG_CRIT`). -/
def LOG_WARNING : Priority := 4

/-- Modelled from the spec: the constant `LOG_INFO` is declared outside `src/`
(see `LOG_CRIT`). -/
def LOG_INFO : Priority := 6

/-- Modelled from the spec: the constant `LOG_DEBUG` is declared outside `src/`
(see `LOG_CRIT`). -/
def LOG_DEBUG : Priority := 7

/-- Modelled from the spec: the struct `FileRotator` is declared outside `src/`; the source
reads and writes its fields `Path` and `Name`. The spec's "rotation parameters
(size/interval/retention — opaque to the core)" are the field `Rotation`, of a type `ρ` the
model leaves open; `default : ρ` is their Go zero value. -/
structure FileRotator (ρ : Type) where
  Path : String
  Name : String
  Rotation : ρ
  deriving DecidableEq, Repr

/-- The struct `Logging` (`src/logp.go`, lines 16-23). -/
structure Logging (ρ : Type) where
  Selectors : List String
  Files : Option (FileRotator ρ)
  ToSyslog : Option Bool
  ToFiles : Option Bool
  JSON : Bool
  Level : String
  deriving DecidableEq, Repr

/-- The map literal `levels` of `getLogLevel`, as the list of its entries. -/
def levels : List (String × Priority) :=
  [("critical", LOG_CRIT), ("error", LOG_ERR), ("warning", LOG_WARNING),
   ("info", LOG_INFO), ("debug", LOG_DEBUG)]

/-- The function `getLogLevel` (`src/logp.go`, lines 144-162). -/
def getLogLevel {ρ : Type} (config : Option (Logging ρ)) : Priority × Option Error :=
  match config with
  | none => (LOG_INFO, none)
  | some c =>
    if c.Level = "" then (LOG_INFO, none)
    else
      match levels.lookup (strings_ToLower c.Level) with
      | none => (0, some ("unknown log level: " ++ c.Level))
      | some level => (level, none)

/-- Modelled from the spec: the struct `logger` of the process-wide `_log` is declared outside
`src/`. The source writes its fields `level`, `toStderr`, `logger`, `selectors`,
`debugAllSelectors` and `JSON`; `toSyslog` and `toFile` are the two other booleans of the
spec's "Sink Enablement — three independent booleans: to-console, to-files, to-syslog".
The field `logger` is `none` for a nil `*log.Logger` and `some p` for
`log.New(os.Stderr, p, stderrLogFlags)`. -/
structure logger where
  JSON : Bool
  level : Priority
  toStderr : Bool
  toSyslog : Bool
  toFile : Bool
  logger : Option String
  selectors : List String
  debugAllSelectors : Bool
  deriving DecidableEq, Repr

/-- The package-level variables: `_log` and the two flag pointers (`src/logp.go`,
lines 11-14). -/
structure World where
  _log : logger
  ToStderr : Option Bool
  DebugSelectorsStr : Option String
  deriving DecidableEq, Repr

/-- A call from `src/logp.go` into a function defined outside it, with its arguments. -/
inductive Call (ρ : Type) where
  | LogInit (level : Priority) (pfx : String) (toSyslog toStderr : Bool)
      (debugSelectors : List String)
  | SetToFile (toFile : Bool) (rotator : FileRotator ρ)
  | SetToStderr (toStderr : Bool) (pfx : String)
  | Debug (selector : String) (msg : String)
  | log_SetOutput_Discard
  deriving DecidableEq, Repr

/-- What the source takes from outside `src/` and the model leaves open: the value of
`Resolve(Logs, "")`, the function `parseSelectors`, and whether the file transport accepts a
rotator (the error `SetToFile` returns for it, `none` for `nil`). -/
structure Env (ρ : Type) where
  defaultFilePath : String
  parseSelectors : List String → List String × Bool
  fileError : FileRotator ρ → Option Error

/-- Modelled from the spec: `LogInit` is defined outside `src/`. Spec 4.4: it "sets the active
severity threshold, registers the enabled debug categories, and enables/disables the syslog
and console destinations as booleans"; it "is idempotent and total — it does not fail". -/
def LogInit {ρ : Type} (env : Env ρ) (level : Priority) (_pfx : String) (toSyslog toStderr : Bool)
    (debugSelectors : List String) (w : World) : World :=
  { w with _log := { w._log with
      level := level, toSyslog := toSyslog, toStderr := toStderr,
      selectors := (env.parseSelectors debugSelectors).1,
      debugAllSelectors := (env.parseSelectors debugSelectors).2 } }

/-- Modelled from the spec: `SetToFile` is defined outside `src/`. Spec 6: the file transport
is `activate(path, name, rotation-params) -> error`; an activation that fails leaves the file
sink as it was, one that succeeds sets it to `toFile`. -/
def SetToFile {ρ : Type} (env : Env ρ) (toFile : Bool) (rotator : FileRotator ρ) (w : World) :
    World × Option Error :=
  match env.fileError rotator with
  | some err => (w, some err)
  | none => ({ w with _log := { w._log with toFile := toFile } }, none)

/-- Modelled from the spec: `SetToStderr` is defined outside `src/`. Spec 6: the console
transport is `enable(bool)`. -/
def SetToStderr (toStderr : Bool) (_pfx : String) (w : World) : World :=
  { w with _log := { w._log with toStderr := toStderr } }

/-- Modelled from the spec: `IsDebug` is defined outside `src/`. A debug category is enabled
when the all-flag is set or the category is in the explicit set (spec 3, "Selector Set"). -/
def IsDebug (selector : String) (w : World) : Bool :=
  w._log.debugAllSelectors || decide (selector ∈ w._log.selectors)

/-- The Go zero value of `logger` with the field `JSON` set: `logger{JSON: json}`. -/
def logger_JSON (json : Bool) : logger :=
  { JSON := json, level := 0, toStderr := false, toSyslog := false, toFile := false,
    logger := none, selectors := [], debugAllSelectors := false }

/-- What a call of `Init` leaves: the package variables, the object `config` points to, the
calls made in order, and the error returned. -/
structure InitResult (ρ : Type) where
  world : World
  config : Logging ρ
  calls : List (Call ρ)
  err : Option Error

/-- The function `HandleFlags` (`src/logp.go`, lines 25-41): the package variables and the
error returned; `none` when `DebugSelectorsStr` is nil. -/
def HandleFlags {ρ : Type} (env : Env ρ) (name : String) (w : World) :
    Option (World × Option Error) :=
  let level := w._log.level
  w.DebugSelectorsStr.bind fun d =>
  let selectors := strings_Split d ','
  let debugSelectors := (env.parseSelectors selectors).1
  let debugAll := (env.parseSelectors selectors).2
  let level := if debugAll ∨ debugSelectors.length > 0 then LOG_DEBUG else level
  -- flags are handled before config file is read => log to stderr for now
  some ({ w with _log := { w._log with
            level := level, toStderr := true, logger := some name,
            selectors := debugSelectors, debugAllSelectors := debugAll } }, none)

/-- The function `SetStderr` (`src/logp.go`, lines 137-142): the package variables and the
calls made; `none` when `ToStderr` is nil. `Debug` only emits a line. -/
def SetStderr {ρ : Type} (w : World) : Option (World × List (Call ρ)) :=
  match w.ToStderr with
  | none => none
  | some t =>
    if !t then
      some (SetToStderr false "" w,
        [Call.SetToStderr false "", Call.Debug "log" "Disable stderr logging"])
    else some (w, [])

/-- The function `Init` (`src/logp.go`, lines 47-135); `none` is a nil dereference. The text
follows the source statement by statement: an assignment under an `if` is the `let` of a
conditional value, an assignment to a field the update of that field. -/
def Init {ρ : Type} [Inhabited ρ] (env : Env ρ) (name : String) (config : Option (Logging ρ))
    (w : World) : Option (InitResult ρ) :=
  -- reset settings from HandleFlags; `config.JSON` dereferences `config`
  config.bind fun c =>
  let w : World := { w with _log := logger_JSON c.JSON }
  let logLevel := (getLogLevel config).1
  let err := (getLogLevel config).2
  if err ≠ none then some ⟨w, c, [], err⟩ else
  let debugSelectors := c.Selectors
  let debugSelectors :=
    if logLevel = LOG_DEBUG then
      if debugSelectors.length = 0 then ["*"] else debugSelectors
    else debugSelectors
  let w : World :=
    { w with DebugSelectorsStr :=
        if w.DebugSelectorsStr = none then some "" else w.DebugSelectorsStr }
  w.DebugSelectorsStr.bind fun d =>
  let debugSelectors := if len d > 0 then strings_Split d ',' else debugSelectors
  let logLevel := if len d > 0 then LOG_DEBUG else logLevel
  -- default log location is in the logs path
  let defaultFilePath := env.defaultFilePath
  let toSyslog := match c.ToSyslog with
    | some b => b
    | none => false
  let toFiles := match c.ToFiles with
    | some b => b
    | none => true
  let w : World :=
    { w with ToStderr := if w.ToStderr = none then some false else w.ToStderr }
  w.ToStderr.bind fun t =>
  -- ToStderr disables logging to syslog/files
  let toSyslog := if t then false else toSyslog
  let toFiles := if t then false else toFiles
  let w := LogInit env logLevel "" toSyslog t debugSelectors w
  let calls : List (Call ρ) := [Call.LogInit logLevel "" toSyslog t debugSelectors]
  let c : Logging ρ :=
    { c with Selectors := if debugSelectors.length > 0 then debugSelectors else c.Selectors }
  let c : Logging ρ :=
    { c with Files :=
        if toFiles then
          match c.Files with
          | none => some { Path := defaultFilePath, Name := name, Rotation := default }
          | some files =>
            some { files with
              Path := if files.Path = "" then defaultFilePath else files.Path
              Name := if files.Name = "" then name else files.Name }
        else c.Files }
  (if toFiles then
      c.Files.bind fun files =>
      some (SetToFile env true files w, [Call.SetToFile true files])
    else some ((w, none), [])).bind fun r =>
  let w := r.1.1
  let err := r.1.2
  let calls := calls ++ r.2
  if err ≠ none then some ⟨w, c, calls, err⟩ else
  -- disable standard logging by default
  let calls := if IsDebug "stdlog" w then calls ++ [Call.log_SetOutput_Discard] else calls
  -- Disable stderr logging if requested by cmdline flag
  (SetStderr w).bind fun r =>
  some ⟨r.1, c, calls ++ r.2, none⟩

/-! ## The resolution of `Init` in closed form

The values `Init` computes on a non-nil config, each as a function of the config and of the
package variables at the call. `Init_eq` proves that `Init` returns `initResult`. -/

/-- The selector string `Init` works with: `*DebugSelectorsStr`, and `""` for a nil pointer. -/
def flagSelectors (w : World) : String :=
  match w.DebugSelectorsStr with
  | some d => d
  | none => ""

/-- The force-console flag `Init` works with: `*ToStderr`, and `false` for a nil pointer. -/
def flagToStderr (w : World) : Bool :=
  match w.ToStderr with
  | some t => t
  | none => false

/-- The value of `logLevel` at the call of `LogInit`. -/
def initLevel {ρ : Type} (c : Logging ρ) (w : World) : Priority :=
  if len (flagSelectors w) > 0 then LOG_DEBUG else (getLogLevel (some c)).1

/-- The value of `debugSelectors` at the call of `LogInit`. -/
def initSelectors {ρ : Type} (c : Logging ρ) (w : World) : List String :=
  if len (flagSelectors w) > 0 then strings_Split (flagSelectors w) ','
  else if (getLogLevel (some c)).1 = LOG_DEBUG then
    if c.Selectors.length = 0 then ["*"] else c.Selectors
  else c.Selectors

/-- The value of `toSyslog` at the call of `LogInit`. -/
def initToSyslog {ρ : Type} (c : Logging ρ) (w : World) : Bool :=
  if flagToStderr w then false
  else match c.ToSyslog with
    | some b => b
    | none => false

/-- The value of `toFiles` at the test of line 104. -/
def initToFiles {ρ : Type} (c : Logging ρ) (w : World) : Bool :=
  if flagToStderr w then false
  else match c.ToFiles with
    | some b => b
    | none => true

/-- The rotator `config.Files` points to after lines 105-118. -/
def initFiles {ρ : Type} [Inhabited ρ] (env : Env ρ) (name : String) (c : Logging ρ) :
    FileRotator ρ :=
  match c.Files with
  | none => { Path := env.defaultFilePath, Name := name, Rotation := default }
  | some files =>
    { files with
      Path := if files.Path = "" then env.defaultFilePath else files.Path
      Name := if files.Name = "" then name else files.Name }

/-- The object `config` points to after line 118. -/
def initConfig {ρ : Type} [Inhabited ρ] (env : Env ρ) (name : String) (c : Logging ρ)
    (w : World) : Logging ρ :=
  { c with
    Selectors := if (initSelectors c w).length > 0 then initSelectors c w else c.Selectors
    Files := if initToFiles c w then some (initFiles env name c) else c.Files }

/-- The call of `LogInit` at line 99. -/
def initLogInitCall {ρ : Type} (c : Logging ρ) (w : World) : Call ρ :=
  Call.LogInit (initLevel c w) "" (initToSyslog c w) (flagToStderr w) (initSelectors c w)

/-- The package variables after the call of `LogInit` at line 99. -/
def initLogInit {ρ : Type} (env : Env ρ) (c : Logging ρ) (w : World) : World :=
  LogInit env (initLevel c w) "" (initToSyslog c w) (flagToStderr w) (initSelectors c w)
    { _log := logger_JSON c.JSON, ToStderr := some (flagToStderr w),
      DebugSelectorsStr := some (flagSelectors w) }

/-- Lines 126-134 of `Init`, from the package variables `w` (with `ToStderr` not nil), the
config `c` and the calls made so far. -/
def initTail {ρ : Type} (w : World) (c : Logging ρ) (calls : List (Call ρ)) : InitResult ρ :=
  { world := if flagToStderr w then w else SetToStderr false "" w
    config := c
    calls := calls ++ (if IsDebug "stdlog" w then [Call.log_SetOutput_Discard] else []) ++
      (if flagToStderr w then []
       else [Call.SetToStderr false "", Call.Debug "log" "Disable stderr logging"])
    err := none }

/-- What `Init` returns on a non-nil config whose level `getLogLevel` accepts. -/
def initResult {ρ : Type} [Inhabited ρ] (env : Env ρ) (name : String) (c : Logging ρ)
    (w : World) : InitResult ρ :=
  if initToFiles c w then
    match env.fileError (initFiles env name c) with
    | some e =>
      { world := initLogInit env c w
        config := initConfig env name c w
        calls := [initLogInitCall c w, Call.SetToFile true (initFiles env name c)]
        err := some e }
    | none =>
      initTail (SetToFile env true (initFiles env name c) (initLogInit env c w)).1
        (initConfig env name c w)
        [initLogInitCall c w, Call.SetToFile true (initFiles env name c)]
  else initTail (initLogInit env c w) (initConfig env name c w) [initLogInitCall c w]

/-! ## Vocabulary of the statements -/

/-- Rune by rune: `x` is `n` or the ASCII upper case of `n`. -/
def caseMixRunes : List Char → List Char → Bool
  | [], [] => true
  | n :: ns, x :: xs => (x == n || x == n.toUpper) && caseMixRunes ns xs
  | _, _ => false

/-- The string `s` is a case mix of `name`: the same letters, each one independently in upper
or lower case. -/
def isCaseMix (name s : String) : Bool := caseMixRunes name.data s.data

/-- The rune `x` folds to `n`: it is `n`, the ASCII upper case of `n`, `U+0130` for `i` or
`U+212A` for `k`. -/
def foldsTo (n x : Char) : Bool :=
  x == n || x == n.toUpper || (n == 'i' && x == Char.ofNat 0x130) ||
    (n == 'k' && x == Char.ofNat 0x212A)

/-- Rune by rune: `x` folds to `n`. -/
def foldMixRunes : List Char → List Char → Bool
  | [], [] => true
  | n :: ns, x :: xs => foldsTo n x && foldMixRunes ns xs
  | _, _ => false

/-- The string `s` is a case mix of `name` in the sense of Unicode simple case folding: as
`isCaseMix`, and `U+0130` may stand for `i`, `U+212A` for `k`. -/
def isFoldMix (name s : String) : Bool := foldMixRunes name.data s.data

/-- The names of the five levels: the keys of `levels`. -/
def levelNames : List String := ["critical", "error", "warning", "info", "debug"]

/-- A configuration with the given `Level`, every other field at its Go zero value. -/
def configWithLevel (level : String) : Logging Unit :=
  { Selectors := [], Files := none, ToSyslog := none, ToFiles := none, JSON := false,
    Level := level }

/-- Modelled from the spec: `parseSelectors` is defined outside `src/`. Spec 4.1: "if any
token equals `"*"`, the all-flag is set and the explicit set is irrelevant; otherwise every
non-empty token is added to the set verbatim". -/
def specParseSelectors (selectors : List String) : List String × Bool :=
  (selectors.filter fun s => s != "" && s != "*", selectors.contains "*")

/-- The contract of the Selector Parser (spec 4.1) for a function `parse`: the all-flag is
set exactly when a token is `"*"`, and when no token is `"*"` the set holds exactly the
non-empty tokens. -/
def SelectorParserContract (parse : List String → List String × Bool) : Prop :=
  ∀ tokens : List String,
    ((parse tokens).2 = true ↔ "*" ∈ tokens) ∧
    ("*" ∉ tokens → ∀ x, x ∈ (parse tokens).1 ↔ x ∈ tokens ∧ x ≠ "")

/-- An environment for the examples: logs under `/var/log`, the selector parser of the spec,
a file transport that accepts every rotator but those with path `/ro`. -/
def exampleEnv : Env Unit :=
  { defaultFilePath := "/var/log"
    parseSelectors := specParseSelectors
    fileError := fun r => if r.Path = "/ro" then some "read-only file system" else none }

/-- The package variables before any flag is set: the zero `_log`, both pointers nil. -/
def exampleWorld : World :=
  { _log := logger_JSON false, ToStderr := none, DebugSelectorsStr := none }

/-- The zero config with `Files` set to a rotator of path `/custom` and no name. -/
def customFilesConfig : Logging Unit :=
  { configWithLevel "" with Files := some { Path := "/custom", Name := "", Rotation := () } }

/-- The string `U+0130 n f o`: `Info` with a dotted capital I. -/
def dottedInfo : String := String.mk [Char.ofNat 0x130, 'n', 'f', 'o']


/-! ## Lemmas on the standard library model -/

theorem len_pos_iff (s : String) : len s > 0 ↔ s ≠ "" := by
  obtain ⟨l⟩ := s
  cases l with
  | nil => simp [len]; rfl
  | cons a l =>
    have := a.utf8Size_pos
    have h : (String.mk (a :: l)) ≠ "" := by
      intro h
      have h2 : a :: l = [] := congrArg String.data h
      exact List.cons_ne_nil _ _ h2
    refine ⟨fun _ => h, fun _ => ?_⟩
    show (String.mk (a :: l)).utf8ByteSize > 0
    rw [String.utf8ByteSize_mk, String.utf8Len_cons]
    omega

/-- A rune always folds to its lower case. -/
theorem foldsTo_unicode_ToLower (x : Char) : foldsTo (unicode_ToLower x) x = true := by
  have hx : Char.ofNat x.toNat = x := Char.ofNat_toNat x
  unfold unicode_ToLower
  split_ifs with h1 h2 h3 h4
  · obtain ⟨k, hk⟩ : ∃ k, x.toNat = k := ⟨_, rfl⟩
    rw [← hx, hk]
    rw [hk] at h2
    obtain ⟨h2a, h2b⟩ := h2
    interval_cases k <;> decide
  · simp [foldsTo]
  · rw [← hx, h3]; decide
  · rw [← hx, h4]; decide
  · simp [foldsTo]

theorem foldMixRunes_map (x : List Char) : foldMixRunes (x.map unicode_ToLower) x = true := by
  induction x with
  | nil => rfl
  | cons a l ih => simp [foldMixRunes, foldsTo_unicode_ToLower, ih]

theorem isFoldMix_strings_ToLower (s : String) : isFoldMix (strings_ToLower s) s = true :=
  foldMixRunes_map s.data

/-- A case mix of lower-case ASCII letters lower-cases to these letters. -/
theorem map_ToLower_of_caseMix : ∀ (n x : List Char),
    (∀ ch ∈ n, unicode_ToLower ch = ch ∧ unicode_ToLower ch.toUpper = ch) →
    caseMixRunes n x = true → x.map unicode_ToLower = n
  | [], [], _, _ => rfl
  | [], _ :: _, _, h => by simp [caseMixRunes] at h
  | _ :: _, [], _, h => by simp [caseMixRunes] at h
  | n :: ns, x :: xs, hn, h => by
    simp only [caseMixRunes, Bool.and_eq_true, Bool.or_eq_true, beq_iff_eq] at h
    have ih := map_ToLower_of_caseMix ns xs (fun ch hch => hn ch (List.mem_cons_of_mem _ hch)) h.2
    have h0 := hn n (List.mem_cons_self _ _)
    rcases h.1 with h1 | h1
    · simp [h1, h0.1, ih]
    · simp [h1, h0.2, ih]

theorem strings_ToLower_of_isCaseMix (name s : String)
    (hn : ∀ ch ∈ name.data, unicode_ToLower ch = ch ∧ unicode_ToLower ch.toUpper = ch)
    (h : isCaseMix name s = true) : strings_ToLower s = name := by
  unfold strings_ToLower
  rw [map_ToLower_of_caseMix name.data s.data hn h]

theorem ne_empty_of_isCaseMix (name s : String) (hn : name ≠ "")
    (h : isCaseMix name s = true) : s ≠ "" := by
  obtain ⟨n⟩ := name
  obtain ⟨x⟩ := s
  intro hs
  have hs : x = [] := congrArg String.data hs
  subst hs
  cases n with
  | nil => exact hn rfl
  | cons a l => simp [isCaseMix, caseMixRunes] at h

theorem getLogLevel_of_lookup {ρ : Type} (c : Logging ρ) (name : String) (lvl : Priority)
    (hne : c.Level ≠ "") (hl : strings_ToLower c.Level = name)
    (hk : levels.lookup name = some lvl) : getLogLevel (some c) = (lvl, none) := by
  simp [getLogLevel, hne, hl, hk]

theorem getLogLevel_of_isCaseMix {ρ : Type} (c : Logging ρ) (name : String) (lvl : Priority)
    (hn : ∀ ch ∈ name.data, unicode_ToLower ch = ch ∧ unicode_ToLower ch.toUpper = ch)
    (hne : name ≠ "") (hk : levels.lookup name = some lvl)
    (h : isCaseMix name c.Level = true) : getLogLevel (some c) = (lvl, none) :=
  getLogLevel_of_lookup c name lvl (ne_empty_of_isCaseMix name _ hne h)
    (strings_ToLower_of_isCaseMix name _ hn h) hk

/-- A key found in `levels` is one of the five names. -/
theorem mem_levelNames_of_lookup (k : String) (lvl : Priority)
    (h : levels.lookup k = some lvl) : k ∈ levelNames := by
  simp only [levels, List.lookup] at h
  simp only [levelNames, List.mem_cons, List.mem_singleton]
  split at h
  · rename_i h1; simp at h1; simp [h1]
  · split at h
    · rename_i h1; simp at h1; simp [h1]
    · split at h
      · rename_i h1; simp at h1; simp [h1]
      · split at h
        · rename_i h1; simp at h1; simp [h1]
        · split at h
          · rename_i h1; simp at h1; simp [h1]
          · simp at h

/-! ## `Init` in closed form -/

/-- A nil `config` is dereferenced at line 50. -/
theorem Init_nil {ρ : Type} [Inhabited ρ] (env : Env ρ) (name : String) (w : World) :
    Init env name none w = none := rfl

/-- On a level `getLogLevel` rejects, `Init` returns at line 55. -/
theorem Init_level_error {ρ : Type} [Inhabited ρ] (env : Env ρ) (name : String)
    (c : Logging ρ) (w : World) (hv : (getLogLevel (some c)).2 ≠ none) :
    Init env name (some c) w =
      some ⟨{ w with _log := logger_JSON c.JSON }, c, [], (getLogLevel (some c)).2⟩ := by
  unfold Init
  simp only [Option.some_bind, ne_eq, hv, not_false_eq_true, if_true]

theorem LogInit_ToStderr {ρ : Type} (env : Env ρ) (l : Priority) (p : String) (a b : Bool)
    (s : List String) (w : World) : (LogInit env l p a b s w).ToStderr = w.ToStderr := rfl

theorem SetToFile_snd {ρ : Type} (env : Env ρ) (b : Bool) (r : FileRotator ρ) (w : World) :
    (SetToFile env b r w).2 = env.fileError r := by
  unfold SetToFile
  cases env.fileError r <;> rfl

theorem SetToFile_ToStderr {ρ : Type} (env : Env ρ) (b : Bool) (r : FileRotator ρ) (w : World) :
    (SetToFile env b r w).1.ToStderr = w.ToStderr := by
  unfold SetToFile
  cases env.fileError r <;> rfl

theorem SetToFile_of_error {ρ : Type} (env : Env ρ) (b : Bool) (r : FileRotator ρ) (w : World)
    (e : Error) (h : env.fileError r = some e) : (SetToFile env b r w).1 = w := by
  unfold SetToFile
  rw [h]

theorem flagToStderr_of_flag (w : World) (t : Bool) (h : w.ToStderr = some t) :
    flagToStderr w = t := by
  unfold flagToStderr
  rw [h]

theorem SetStderr_of_flag {ρ : Type} (w : World) (t : Bool) (h : w.ToStderr = some t) :
    SetStderr w = some (if t then w else SetToStderr false "" w,
      if t then ([] : List (Call ρ))
      else [Call.SetToStderr false "", Call.Debug "log" "Disable stderr logging"]) := by
  unfold SetStderr
  rw [h]
  cases t <;> rfl

theorem flagToStderr_mk (lg : logger) (t : Bool) (ds : Option String) :
    flagToStderr ⟨lg, some t, ds⟩ = t := rfl

theorem flagToStderr_LogInit {ρ : Type} (env : Env ρ) (l : Priority) (p : String) (a b : Bool)
    (s : List String) (w : World) : flagToStderr (LogInit env l p a b s w) = flagToStderr w :=
  rfl

theorem flagToStderr_SetToFile {ρ : Type} (env : Env ρ) (b : Bool) (r : FileRotator ρ)
    (w : World) : flagToStderr (SetToFile env b r w).1 = flagToStderr w := by
  unfold flagToStderr
  rw [SetToFile_ToStderr]

theorem SetStderr_LogInit {ρ : Type} (env : Env ρ) (l : Priority) (p : String) (a b : Bool)
    (s : List String) (lg : logger) (t : Bool) (ds : Option String) :
    SetStderr (LogInit env l p a b s ⟨lg, some t, ds⟩) =
      some (if t then LogInit env l p a b s ⟨lg, some t, ds⟩
        else SetToStderr false "" (LogInit env l p a b s ⟨lg, some t, ds⟩),
      if t then ([] : List (Call ρ))
      else [Call.SetToStderr false "", Call.Debug "log" "Disable stderr logging"]) :=
  SetStderr_of_flag _ t rfl

theorem SetStderr_SetToFile {ρ : Type} (env : Env ρ) (x : Bool) (r : FileRotator ρ)
    (l : Priority) (p : String) (a b : Bool)
    (s : List String) (lg : logger) (t : Bool) (ds : Option String) :
    SetStderr (SetToFile env x r (LogInit env l p a b s ⟨lg, some t, ds⟩)).1 =
      some (if t then (SetToFile env x r (LogInit env l p a b s ⟨lg, some t, ds⟩)).1
        else SetToStderr false "" (SetToFile env x r (LogInit env l p a b s ⟨lg, some t, ds⟩)).1,
      if t then ([] : List (Call ρ))
      else [Call.SetToStderr false "", Call.Debug "log" "Disable stderr logging"]) :=
  SetStderr_of_flag _ t (by rw [SetToFile_ToStderr]; rfl)

theorem Init_eq {ρ : Type} [Inhabited ρ] (env : Env ρ) (name : String)
    (c : Logging ρ) (w : World) (hv : (getLogLevel (some c)).2 = none) :
    Init env name (some c) w = some (initResult env name c w) := by
  have key : ∀ (lg : logger) (d : String) (t : Bool),
      Init env name (some c) ⟨lg, some t, some d⟩ =
        some (initResult env name c ⟨lg, some t, some d⟩) := by
    intro lg d t
    unfold Init initResult initTail initConfig initLogInitCall initLogInit initToFiles
      initToSyslog initSelectors initLevel initFiles
    simp only [flagSelectors, Option.some_bind, hv, ne_eq, not_true_eq_false,
      if_false, reduceCtorEq, if_true, flagToStderr_mk, flagToStderr_SetToFile,
      flagToStderr_LogInit]
    generalize getLogLevel (some c) = g
    obtain ⟨sel, files, tsys, tfiles, json, lvl⟩ := c
    cases t <;> rcases tfiles with _ | _ | _ <;> rcases files with _ | files <;>
      simp only [Option.some_bind, if_true, if_false, Bool.false_eq_true, SetToFile_snd]
    all_goals
      first
      | (generalize hE : env.fileError _ = e
         cases e
         · simp only [not_true_eq_false, if_false, SetStderr_SetToFile, Option.some_bind,
             Bool.false_eq_true, if_true, List.cons_append, List.nil_append]
           generalize IsDebug "stdlog" _ = b
           cases b <;> rfl
         · simp only [reduceCtorEq, not_false_eq_true, if_true,
             SetToFile_of_error _ _ _ _ _ hE, List.cons_append, List.nil_append])
      | (simp only [not_true_eq_false, if_false, SetStderr_LogInit, Option.some_bind,
            Bool.false_eq_true, if_true, List.cons_append, List.nil_append]
         generalize IsDebug "stdlog" _ = b
         cases b <;> rfl)
  obtain ⟨lg, ts, ds⟩ := w
  rcases ds with _ | d <;> rcases ts with _ | t
  · refine Eq.trans ?_ (key lg "" false)
    unfold Init
    simp only [Option.some_bind, hv, ne_eq, not_true_eq_false, if_false, reduceCtorEq, if_true]
  · refine Eq.trans ?_ (key lg "" t)
    unfold Init
    simp only [Option.some_bind, hv, ne_eq, not_true_eq_false, if_false, reduceCtorEq, if_true]
  · refine Eq.trans ?_ (key lg d false)
    unfold Init
    simp only [Option.some_bind, hv, ne_eq, not_true_eq_false, if_false, reduceCtorEq, if_true]
  · exact key lg d t

theorem initResult_config {ρ : Type} [Inhabited ρ] (env : Env ρ) (name : String)
    (c : Logging ρ) (w : World) : (initResult env name c w).config = initConfig env name c w := by
  unfold initResult initTail
  split
  · split <;> rfl
  · rfl

theorem initResult_err {ρ : Type} [Inhabited ρ] (env : Env ρ) (name : String)
    (c : Logging ρ) (w : World) :
    (initResult env name c w).err =
      if initToFiles c w then env.fileError (initFiles env name c) else none := by
  unfold initResult initTail
  split
  · split <;> simp only [*]
  · rfl

theorem initResult_calls {ρ : Type} [Inhabited ρ] (env : Env ρ) (name : String)
    (c : Logging ρ) (w : World) :
    ∃ rest, (initResult env name c w).calls = initLogInitCall c w :: rest ∧
      ∀ e ∈ rest,
        (initToFiles c w = true ∧ e = Call.SetToFile true (initFiles env name c)) ∨
        e = Call.log_SetOutput_Discard ∨
        (flagToStderr w = false ∧ (initResult env name c w).err = none ∧
          (e = Call.SetToStderr false "" ∨ e = Call.Debug "log" "Disable stderr logging")) := by
  rw [initResult_err]
  unfold initResult initTail
  cases hF : initToFiles c w
  · simp only [Bool.false_eq_true, if_false, flagToStderr_LogInit]
    refine ⟨_, rfl, ?_⟩
    intro e he
    cases hD : IsDebug "stdlog" (initLogInit env c w) <;> cases hT : flagToStderr w <;>
      simp [hD, hT, initLogInit, flagToStderr_LogInit, flagToStderr_mk] at he ⊢ <;> tauto
  · simp only [if_true]
    cases hE : env.fileError (initFiles env name c)
    · refine ⟨_, rfl, ?_⟩
      intro e he
      cases hD : IsDebug "stdlog" (SetToFile env true (initFiles env name c) (initLogInit env c w)).1 <;>
        cases hT : flagToStderr w <;>
        simp [hD, hT, initLogInit, flagToStderr_LogInit, flagToStderr_mk, flagToStderr_SetToFile] at he ⊢ <;>
        tauto
    · refine ⟨_, rfl, ?_⟩
      intro e he
      simp at he
      exact Or.inl ⟨trivial, he⟩

theorem SetToFile_mem_initResult {ρ : Type} [Inhabited ρ] (env : Env ρ) (name : String)
    (c : Logging ρ) (w : World) (h : initToFiles c w = true) :
    Call.SetToFile true (initFiles env name c) ∈ (initResult env name c w).calls := by
  unfold initResult initTail
  simp only [h, if_true]
  split <;> simp

/-- A call that is one of those `Init` makes after `LogInit` is not a call of `LogInit`. -/
theorem ne_LogInit_of_rest {ρ : Type} (e x : Call ρ) (P Q R : Prop)
    (h : (P ∧ e = x) ∨ e = Call.log_SetOutput_Discard ∨
      (Q ∧ R ∧ (e = Call.SetToStderr false "" ∨ e = Call.Debug "log" "Disable stderr logging")))
    (hx : ∀ l p a b s, x ≠ Call.LogInit l p a b s) :
    ∀ l p a b s, e ≠ Call.LogInit l p a b s := by
  intro l p a b s he
  subst he
  rcases h with ⟨_, h⟩ | h | ⟨_, _, h | h⟩
  · exact hx _ _ _ _ _ h.symm
  · cases h
  · cases h
  · cases h

theorem flagSelectors_of_flag (w : World) (f : String) (h : w.DebugSelectorsStr = some f) :
    flagSelectors w = f := by
  unfold flagSelectors
  rw [h]

theorem len_flagSelectors_of_unset (w : World)
    (h : w.DebugSelectorsStr = none ∨ w.DebugSelectorsStr = some "") :
    ¬ len (flagSelectors w) > 0 := by
  unfold flagSelectors
  rcases h with h | h <;> rw [h] <;> decide

theorem flagToStderr_of_unset (w : World) (h : w.ToStderr = none ∨ w.ToStderr = some false) :
    flagToStderr w = false := by
  unfold flagToStderr
  rcases h with h | h <;> rw [h]

theorem getLogLevel_snd {ρ : Type} (c : Logging ρ) :
    (getLogLevel (some c)).2 =
      if c.Level ≠ "" ∧ levels.lookup (strings_ToLower c.Level) = none then
        some ("unknown log level: " ++ c.Level)
      else none := by
  unfold getLogLevel
  by_cases h : c.Level = ""
  · simp [h]
  · cases hl : levels.lookup (strings_ToLower c.Level) <;> simp [h, hl]

theorem SetToFile_mem_initResult_iff {ρ : Type} [Inhabited ρ] (env : Env ρ) (name : String)
    (c : Logging ρ) (w : World) (f : FileRotator ρ) :
    Call.SetToFile true f ∈ (initResult env name c w).calls ↔
      initToFiles c w = true ∧ f = initFiles env name c := by
  constructor
  · intro hf
    obtain ⟨rest, hcalls, hrest⟩ := initResult_calls env name c w
    rw [hcalls] at hf
    rcases List.mem_cons.1 hf with h | h
    · cases h
    · rcases hrest _ h with ⟨h1, h2⟩ | h1 | ⟨_, _, h1 | h1⟩
      · cases h2
        exact ⟨h1, rfl⟩
      · cases h1
      · cases h1
      · cases h1
  · rintro ⟨h, rfl⟩
    exact SetToFile_mem_initResult env name c w h

theorem initToFiles_eq_false {ρ : Type} (c : Logging ρ) (w : World)
    (h : c.ToFiles = some false ∨ w.ToStderr = some true) : initToFiles c w = false := by
  unfold initToFiles
  rcases h with h | h
  · rw [h]
    cases flagToStderr w <;> rfl
  · rw [flagToStderr_of_flag w true h]
    rfl

theorem SetToFile_flags {ρ : Type} (env : Env ρ) (b : Bool) (r : FileRotator ρ) (w : World) :
    (SetToFile env b r w).1.ToStderr = w.ToStderr ∧
    (SetToFile env b r w).1.DebugSelectorsStr = w.DebugSelectorsStr ∧
    (SetToFile env b r w).1._log.toStderr = w._log.toStderr := by
  unfold SetToFile
  cases env.fileError r <;> exact ⟨rfl, rfl, rfl⟩

/-- The flag variables after `Init` on an accepted level: both pointers are set. -/
theorem initResult_world_flags {ρ : Type} [Inhabited ρ] (env : Env ρ) (name : String)
    (c : Logging ρ) (w : World) :
    (initResult env name c w).world.ToStderr = some (flagToStderr w) ∧
    (initResult env name c w).world.DebugSelectorsStr = some (flagSelectors w) := by
  unfold initResult initTail
  cases hF : initToFiles c w
  · simp only [Bool.false_eq_true, if_false]
    split <;> exact ⟨rfl, rfl⟩
  · simp only [if_true]
    cases hE : env.fileError (initFiles env name c)
    · simp only
      split
      · exact ⟨(SetToFile_flags _ _ _ _).1, (SetToFile_flags _ _ _ _).2.1⟩
      · exact ⟨(SetToFile_flags _ _ _ _).1, (SetToFile_flags _ _ _ _).2.1⟩
    · exact ⟨rfl, rfl⟩

/-- The console sink after `Init` on an accepted level is the force-console flag: `LogInit`
is passed the flag, and `SetStderr` turns the console off only when the flag is false. -/
theorem initResult_world_toStderr {ρ : Type} [Inhabited ρ] (env : Env ρ) (name : String)
    (c : Logging ρ) (w : World) :
    (initResult env name c w).world._log.toStderr = flagToStderr w := by
  unfold initResult initTail
  cases hF : initToFiles c w
  · simp only [Bool.false_eq_true, if_false, flagToStderr_LogInit, initLogInit, flagToStderr_mk]
    cases hT : flagToStderr w <;> rfl
  · simp only [if_true]
    cases hE : env.fileError (initFiles env name c)
    · simp only [flagToStderr_SetToFile, flagToStderr_LogInit, initLogInit, flagToStderr_mk]
      cases hT : flagToStderr w
      · rfl
      · simp only [if_true]
        rw [(SetToFile_flags _ _ _ _).2.2]
        rfl
    · rfl

theorem initResult_congr {ρ : Type} [Inhabited ρ] (env : Env ρ) (name : String)
    (c : Logging ρ) (w w1 : World) (h1 : flagToStderr w = flagToStderr w1)
    (h2 : flagSelectors w = flagSelectors w1) :
    initResult env name c w = initResult env name c w1 := by
  unfold initResult initTail initConfig initLogInitCall initLogInit initToFiles initToSyslog
    initSelectors initLevel
  simp only [h1, h2]

theorem splitRunes_length_pos (sep : Char) (cs cur : List Char) :
    (splitRunes sep cs cur).length ≥ 1 := by
  induction cs generalizing cur with
  | nil => simp [splitRunes]
  | cons a l ih =>
    unfold splitRunes
    split
    · simp
    · exact ih _

theorem strings_Split_length_pos (s : String) (sep : Char) : (strings_Split s sep).length ≥ 1 :=
  splitRunes_length_pos sep s.data []

theorem lookup_levels_debug (k : String) (lvl : Priority) (h : levels.lookup k = some lvl) :
    lvl = LOG_DEBUG ↔ k = "debug" := by
  simp only [levels, List.lookup] at h
  split at h
  · rename_i h1
    simp only [beq_iff_eq] at h1
    cases h
    subst h1
    decide
  · split at h
    · rename_i h1
      simp only [beq_iff_eq] at h1
      cases h
      subst h1
      decide
    · split at h
      · rename_i h1
        simp only [beq_iff_eq] at h1
        cases h
        subst h1
        decide
      · split at h
        · rename_i h1
          simp only [beq_iff_eq] at h1
          cases h
          subst h1
          decide
        · split at h
          · rename_i h1
            simp only [beq_iff_eq] at h1
            cases h
            subst h1
            decide
          · cases h

theorem getLogLevel_debug_iff {ρ : Type} (c : Logging ρ) (hv : (getLogLevel (some c)).2 = none) :
    (getLogLevel (some c)).1 = LOG_DEBUG ↔ strings_ToLower c.Level = "debug" := by
  unfold getLogLevel at hv ⊢
  by_cases h : c.Level = ""
  · simp only [h, if_true]
    decide
  · simp only [h, if_false] at hv ⊢
    cases hl : levels.lookup (strings_ToLower c.Level) with
    | none => rw [hl] at hv; cases hv
    | some lvl => exact lookup_levels_debug _ _ hl

theorem specParseSelectors_contract : SelectorParserContract specParseSelectors := by
  intro tokens
  constructor
  · simp [specParseSelectors]
  · intro hstar x
    simp only [specParseSelectors, List.mem_filter, Bool.and_eq_true, bne_iff_ne, ne_eq]
    constructor
    · rintro ⟨h1, h2, _⟩
      exact ⟨h1, h2⟩
    · rintro ⟨h1, h2⟩
      exact ⟨h1, h2, fun h => hstar (h ▸ h1)⟩

/-- Under the contract, the test of line 29 of `HandleFlags` holds exactly when a token is
`"*"` or not empty. -/
theorem debug_test_iff (parse : List String → List String × Bool)
    (hc : SelectorParserContract parse) (tokens : List String) :
    ((parse tokens).2 = true ∨ (parse tokens).1.length > 0) ↔
      ("*" ∈ tokens ∨ ∃ x ∈ tokens, x ≠ "") := by
  obtain ⟨h1, h2⟩ := hc tokens
  by_cases hs : "*" ∈ tokens
  · simp only [h1, hs, true_or]
  · simp only [h1, hs, false_or]
    rw [gt_iff_lt, List.length_pos_iff_exists_mem]
    constructor
    · rintro ⟨x, hx⟩
      exact ⟨x, ((h2 hs x).1 hx).1, ((h2 hs x).1 hx).2⟩
    · rintro ⟨x, hx, hne⟩
      exact ⟨x, (h2 hs x).2 ⟨hx, hne⟩⟩

/-! ## A second call of `Init` -/

theorem getLogLevel_congr {ρ : Type} (c c1 : Logging ρ) (h : c1.Level = c.Level) :
    getLogLevel (some c1) = getLogLevel (some c) := by
  unfold getLogLevel
  simp only [h]

theorem initSelectors_length_pos_of_debug {ρ : Type} (c : Logging ρ) :
    (if c.Selectors.length = 0 then ["*"] else c.Selectors).length ≠ 0 := by
  split
  · simp
  · assumption

/-- The selector list of the second call is the one of the first. -/
theorem initSelectors_initConfig {ρ : Type} [Inhabited ρ] (env : Env ρ) (name : String)
    (c : Logging ρ) (w : World) :
    initSelectors (initConfig env name c w) w = initSelectors c w := by
  have hg : getLogLevel (some (initConfig env name c w)) = getLogLevel (some c) :=
    getLogLevel_congr c _ rfl
  unfold initSelectors
  rw [hg]
  by_cases hd : len (flagSelectors w) > 0
  · simp only [hd, if_true]
  · simp only [hd, if_false]
    by_cases hl : (getLogLevel (some c)).1 = LOG_DEBUG
    · simp only [hl, if_true]
      have hne := initSelectors_length_pos_of_debug c
      have hcs : (initConfig env name c w).Selectors =
          (if c.Selectors.length = 0 then ["*"] else c.Selectors) := by
        simp only [initConfig, initSelectors, hd, if_false, hl, if_true]
        rw [if_pos (Nat.pos_of_ne_zero hne)]
      rw [hcs, if_neg hne]
    · simp only [hl, if_false]
      simp only [initConfig, initSelectors, hd, if_false, hl, ite_self]

theorem initLevel_initConfig {ρ : Type} [Inhabited ρ] (env : Env ρ) (name : String)
    (c : Logging ρ) (w : World) :
    initLevel (initConfig env name c w) w = initLevel c w := by
  unfold initLevel
  rw [getLogLevel_congr c (initConfig env name c w) rfl]

/-- Filling the defaults of a rotator a second time changes nothing. -/
theorem initFiles_initConfig {ρ : Type} [Inhabited ρ] (env : Env ρ) (name : String)
    (c : Logging ρ) (w : World) :
    initFiles env name (initConfig env name c w) = initFiles env name c := by
  unfold initConfig
  cases hF : initToFiles c w
  · rfl
  · simp only [if_true]
    unfold initFiles
    cases hf : c.Files with
    | none =>
      simp only
      congr 1
      · split
        · rfl
        · rfl
      · split
        · rfl
        · rfl
    | some o =>
      simp only
      congr 1
      · by_cases hp : o.Path = ""
        · simp only [hp, if_true, ite_self]
        · simp only [hp, if_false]
      · by_cases hn : o.Name = ""
        · simp only [hn, if_true, ite_self]
        · simp only [hn, if_false]

theorem initConfig_initConfig {ρ : Type} [Inhabited ρ] (env : Env ρ) (name : String)
    (c : Logging ρ) (w : World) :
    initConfig env name (initConfig env name c w) w = initConfig env name c w := by
  have hs := initSelectors_initConfig env name c w
  have hf := initFiles_initConfig env name c w
  have ht : initToFiles (initConfig env name c w) w = initToFiles c w := rfl
  unfold initConfig at hs hf ht ⊢
  rw [hs, hf, ht]
  congr 1
  · split <;> rfl
  · split
    · rfl
    · rfl

/-- On the config the first call leaves, `Init` computes what the first call computed. -/
theorem initResult_initConfig {ρ : Type} [Inhabited ρ] (env : Env ρ) (name : String)
    (c : Logging ρ) (w : World) :
    initResult env name (initConfig env name c w) w = initResult env name c w := by
  have h1 := initSelectors_initConfig env name c w
  have h2 := initLevel_initConfig env name c w
  have h3 := initFiles_initConfig env name c w
  have h4 := initConfig_initConfig env name c w
  have h5 : initToFiles (initConfig env name c w) w = initToFiles c w := rfl
  have h6 : initToSyslog (initConfig env name c w) w = initToSyslog c w := rfl
  have h7 : initLogInitCall (initConfig env name c w) w = (initLogInitCall c w : Call ρ) := by
    unfold initLogInitCall
    rw [h1, h2, h6]
  have h8 : initLogInit env (initConfig env name c w) w = initLogInit env c w := by
    unfold initLogInit
    rw [h1, h2, h6]
    rfl
  unfold initResult
  rw [h3, h4, h5, h7, h8]

theorem flags_initResult_world {ρ : Type} [Inhabited ρ] (env : Env ρ) (name : String)
    (c : Logging ρ) (w : World) :
    flagToStderr (initResult env name c w).world = flagToStderr w ∧
    flagSelectors (initResult env name c w).world = flagSelectors w := by
  obtain ⟨h1, h2⟩ := initResult_world_flags env name c w
  exact ⟨flagToStderr_of_flag _ _ h1, flagSelectors_of_flag _ _ h2⟩

/-! ## The level resolver -/

/-- C1: for every case mix of critical, error, warning, info or debug as `Level`,
`getLogLevel` returns no error and the priority of that name. -/
theorem C1_getLogLevel_case_mix {ρ : Type} (c : Logging ρ) :
    (isCaseMix "critical" c.Level = true → getLogLevel (some c) = (LOG_CRIT, none)) ∧
    (isCaseMix "error" c.Level = true → getLogLevel (some c) = (LOG_ERR, none)) ∧
    (isCaseMix "warning" c.Level = true → getLogLevel (some c) = (LOG_WARNING, none)) ∧
    (isCaseMix "info" c.Level = true → getLogLevel (some c) = (LOG_INFO, none)) ∧
    (isCaseMix "debug" c.Level = true → getLogLevel (some c) = (LOG_DEBUG, none)) :=
  ⟨getLogLevel_of_isCaseMix c _ _ (by decide) (by decide) (by decide),
   getLogLevel_of_isCaseMix c _ _ (by decide) (by decide) (by decide),
   getLogLevel_of_isCaseMix c _ _ (by decide) (by decide) (by decide),
   getLogLevel_of_isCaseMix c _ _ (by decide) (by decide) (by decide),
   getLogLevel_of_isCaseMix c _ _ (by decide) (by decide) (by decide)⟩

/-- C1, at `"WaRnInG"` and `"DEBUG"`. -/
theorem C1_getLogLevel_case_mix_witness :
    getLogLevel (some (configWithLevel "WaRnInG")) = (LOG_WARNING, none) ∧
    getLogLevel (some (configWithLevel "DEBUG")) = (LOG_DEBUG, none) :=
  ⟨(C1_getLogLevel_case_mix (configWithLevel "WaRnInG")).2.2.1 (by decide),
   (C1_getLogLevel_case_mix (configWithLevel "DEBUG")).2.2.2.2 (by decide)⟩

/-- C2, as stated, fails: `U+0130 n f o` is not empty and is a case mix of none of the five
names, and `getLogLevel` returns `LOG_INFO` and no error for it. -/
theorem C2_dotted_capital_I_accepted :
    dottedInfo ≠ "" ∧ (∀ name ∈ levelNames, isCaseMix name dottedInfo = false) ∧
    getLogLevel (some (configWithLevel dottedInfo)) = (LOG_INFO, none) := by
  decide

/-- C2, amended: for every non-empty `Level` that is a case mix of none of the five names,
where `U+0130` counts as a case of `i` (and `U+212A` of `k`), `getLogLevel` returns the error
"unknown log level: " followed by `Level` as supplied, with priority 0. -/
theorem C2_getLogLevel_unknown {ρ : Type} (c : Logging ρ) (hne : c.Level ≠ "")
    (h : ∀ name ∈ levelNames, isFoldMix name c.Level = false) :
    getLogLevel (some c) = (0, some ("unknown log level: " ++ c.Level)) := by
  cases hl : levels.lookup (strings_ToLower c.Level) with
  | none => simp [getLogLevel, hne, hl]
  | some lvl =>
    have h1 := h _ (mem_levelNames_of_lookup _ _ hl)
    rw [isFoldMix_strings_ToLower] at h1
    exact absurd h1 (by decide)

/-- C2 amended, at `" info"` (a leading blank) and at `"debu" ++ U+212A`. -/
theorem C2_getLogLevel_unknown_witness :
    getLogLevel (some (configWithLevel " info")) = (0, some "unknown log level:  info") ∧
    (getLogLevel (some (configWithLevel (String.mk ['d', 'e', 'b', 'u', Char.ofNat 0x212A])))).2
      ≠ none :=
  ⟨C2_getLogLevel_unknown (configWithLevel " info") (by decide) (by decide),
   by rw [C2_getLogLevel_unknown (configWithLevel (String.mk ['d', 'e', 'b', 'u', Char.ofNat 0x212A]))
        (by decide) (by decide)]; simp⟩

/-- C3: `getLogLevel` returns `LOG_INFO` and no error for a nil config and for a config whose
`Level` is empty, whatever its other fields. -/
theorem C3_getLogLevel_default {ρ : Type} :
    getLogLevel (none : Option (Logging ρ)) = (LOG_INFO, none) ∧
    ∀ (selectors : List String) (files : Option (FileRotator ρ)) (toSyslog toFiles : Option Bool)
      (json : Bool),
      getLogLevel (some ⟨selectors, files, toSyslog, toFiles, json, ""⟩) = (LOG_INFO, none) :=
  ⟨rfl, fun _ _ _ _ _ => rfl⟩


/-! ## The full phase: `Init` -/

/-- C4 (Rule B): on a non-nil config with an accepted level and a non-empty command-line
selector string `f`, `Init` returns, its first call is `LogInit` with level `LOG_DEBUG` and
the selector list `strings.Split(f, ",")`, and it calls `LogInit` only once. -/
theorem C4_flag_selectors_force_debug {ρ : Type} [Inhabited ρ] (env : Env ρ) (name : String)
    (c : Logging ρ) (w : World) (f : String) (hv : (getLogLevel (some c)).2 = none)
    (hf : w.DebugSelectorsStr = some f) (hne : f ≠ "") :
    ∃ r toSyslog toStderr rest, Init env name (some c) w = some r ∧
      r.calls = Call.LogInit LOG_DEBUG "" toSyslog toStderr (strings_Split f ',') :: rest ∧
      ∀ e ∈ rest, ∀ l p a b s, e ≠ Call.LogInit l p a b s := by
  have hlen : len f > 0 := (len_pos_iff f).2 hne
  obtain ⟨rest, hcalls, hrest⟩ := initResult_calls env name c w
  refine ⟨_, initToSyslog c w, flagToStderr w, rest, Init_eq env name c w hv, ?_, ?_⟩
  · rw [hcalls]
    simp only [initLogInitCall, initLevel, initSelectors, flagSelectors_of_flag w f hf, hlen,
      if_true]
  · intro e he
    exact ne_LogInit_of_rest e _ _ _ _ (hrest e he) (fun _ _ _ _ _ h => by cases h)

/-- C4 at the flag `"auth,net"` with `Level` `"info"`: level `LOG_DEBUG` and the selectors
`["auth", "net"]`, and the whole run evaluated. -/
theorem C4_flag_selectors_force_debug_witness :
    strings_Split "auth,net" ',' = ["auth", "net"] ∧
    (∃ r toSyslog toStderr rest,
      Init exampleEnv "agent" (some (configWithLevel "info"))
        { exampleWorld with DebugSelectorsStr := some "auth,net" } = some r ∧
      r.calls = Call.LogInit LOG_DEBUG "" toSyslog toStderr (strings_Split "auth,net" ',') :: rest ∧
      ∀ e ∈ rest, ∀ l p a b s, e ≠ Call.LogInit l p a b s) ∧
    (Init exampleEnv "agent" (some (configWithLevel "info"))
        { exampleWorld with DebugSelectorsStr := some "auth,net" }).map (fun r => r.calls) =
      some [Call.LogInit LOG_DEBUG "" false false ["auth", "net"],
        Call.SetToFile true { Path := "/var/log", Name := "agent", Rotation := () },
        Call.SetToStderr false "", Call.Debug "log" "Disable stderr logging"] :=
  ⟨by decide,
   C4_flag_selectors_force_debug exampleEnv "agent" (configWithLevel "info")
     { exampleWorld with DebugSelectorsStr := some "auth,net" } "auth,net"
     (by decide) rfl (by decide),
   by decide⟩

/-- C5 (Rule A): on a non-nil config with an accepted level, the command-line selector string
empty or unset, `Init` returns and calls `LogInit` once, first, with the level of `getLogLevel`
and a selector list that is `["*"]` when that level is `LOG_DEBUG` and `config.Selectors` is
empty, and `config.Selectors` unchanged when the level is not `LOG_DEBUG` or
`config.Selectors` is not empty. -/
theorem C5_rule_A_wildcard {ρ : Type} [Inhabited ρ] (env : Env ρ) (name : String)
    (c : Logging ρ) (w : World) (hv : (getLogLevel (some c)).2 = none)
    (hflag : w.DebugSelectorsStr = none ∨ w.DebugSelectorsStr = some "") :
    ∃ r toSyslog toStderr sels rest, Init env name (some c) w = some r ∧
      r.calls = Call.LogInit (getLogLevel (some c)).1 "" toSyslog toStderr sels :: rest ∧
      (∀ e ∈ rest, ∀ l p a b s, e ≠ Call.LogInit l p a b s) ∧
      ((getLogLevel (some c)).1 = LOG_DEBUG → c.Selectors.length = 0 → sels = ["*"]) ∧
      ((getLogLevel (some c)).1 ≠ LOG_DEBUG ∨ c.Selectors.length ≠ 0 → sels = c.Selectors) := by
  have hlen := len_flagSelectors_of_unset w hflag
  obtain ⟨rest, hcalls, hrest⟩ := initResult_calls env name c w
  refine ⟨_, initToSyslog c w, flagToStderr w, initSelectors c w, rest,
    Init_eq env name c w hv, ?_, ?_, ?_, ?_⟩
  · rw [hcalls]
    simp only [initLogInitCall, initLevel, hlen, if_false]
  · intro e he
    exact ne_LogInit_of_rest e _ _ _ _ (hrest e he) (fun _ _ _ _ _ h => by cases h)
  · intro hd hs
    simp only [initSelectors, hlen, if_false, hd, hs, if_true]
  · intro h
    simp only [initSelectors, hlen, if_false]
    rcases h with h | h
    · rw [if_neg h]
    · rw [if_neg h, ite_self]

/-- C5 at `Level` `"debug"` with no selectors and no flag: the selector list is `["*"]`. -/
theorem C5_rule_A_wildcard_witness :
    ∃ r toSyslog toStderr rest,
      Init exampleEnv "agent" (some (configWithLevel "debug")) exampleWorld = some r ∧
      r.calls = Call.LogInit LOG_DEBUG "" toSyslog toStderr ["*"] :: rest := by
  obtain ⟨r, ts, te, sels, rest, h1, h2, _, h4, _⟩ :=
    C5_rule_A_wildcard exampleEnv "agent" (configWithLevel "debug") exampleWorld (by decide)
      (Or.inl rfl)
  have hs : sels = ["*"] := h4 (by decide) (by decide)
  have hl : (getLogLevel (some (configWithLevel "debug"))).1 = LOG_DEBUG := by decide
  rw [hs, hl] at h2
  exact ⟨r, ts, te, rest, h1, h2⟩

/-- C6 (Rule C): with the force-console flag true, on every non-nil config with an accepted
level, `Init` returns no error, its first call is `LogInit` with `toSyslog = false` and
`toStderr = true`, any other call is `log.SetOutput(ioutil.Discard)` (so `SetToFile` is not
called), and `_log` ends with syslog and file off and stderr on. -/
theorem C6_force_console {ρ : Type} [Inhabited ρ] (env : Env ρ) (name : String)
    (c : Logging ρ) (w : World) (hv : (getLogLevel (some c)).2 = none)
    (ht : w.ToStderr = some true) :
    ∃ r lvl sels rest, Init env name (some c) w = some r ∧ r.err = none ∧
      r.calls = Call.LogInit lvl "" false true sels :: rest ∧
      (∀ e ∈ rest, e = Call.log_SetOutput_Discard) ∧
      r.world._log.toSyslog = false ∧ r.world._log.toFile = false ∧
      r.world._log.toStderr = true := by
  have hT : flagToStderr w = true := flagToStderr_of_flag w true ht
  have hF : initToFiles c w = false := by simp only [initToFiles, hT, if_true]
  have hS : initToSyslog c w = false := by simp only [initToSyslog, hT, if_true]
  obtain ⟨rest, hcalls, hrest⟩ := initResult_calls env name c w
  refine ⟨_, initLevel c w, initSelectors c w, rest, Init_eq env name c w hv, ?_, ?_, ?_, ?_⟩
  · rw [initResult_err, hF]
    rfl
  · rw [hcalls]
    simp only [initLogInitCall, hS, hT]
  · intro e he
    rcases hrest e he with ⟨h, _⟩ | h | ⟨h, _⟩
    · rw [hF] at h
      cases h
    · exact h
    · rw [hT] at h
      cases h
  · simp only [initResult, initTail, hF, Bool.false_eq_true, if_false, initLogInit,
      flagToStderr_LogInit, flagToStderr_mk, hT, if_true, hS, LogInit, logger_JSON, and_self]

/-- C6 with `to_files` and `to_syslog` both set to true in the config. -/
theorem C6_force_console_witness :
    ∃ r lvl sels rest,
      Init exampleEnv "agent"
        (some { configWithLevel "info" with ToFiles := some true, ToSyslog := some true })
        { exampleWorld with ToStderr := some true } = some r ∧ r.err = none ∧
      r.calls = Call.LogInit lvl "" false true sels :: rest ∧
      (∀ e ∈ rest, e = Call.log_SetOutput_Discard) ∧
      r.world._log.toSyslog = false ∧ r.world._log.toFile = false ∧
      r.world._log.toStderr = true :=
  C6_force_console exampleEnv "agent"
    { configWithLevel "info" with ToFiles := some true, ToSyslog := some true }
    { exampleWorld with ToStderr := some true } (by decide) rfl

/-- C7 (sink defaults): with the force-console flag false or unset, on every non-nil config
with an accepted level, `Init` returns, its first call is `LogInit` with `toStderr = false`
and with `toSyslog = true` exactly when `config.ToSyslog` is set and true, and it calls
`SetToFile(true, ...)` exactly when `config.ToFiles` is unset or set to true. -/
theorem C7_sink_defaults {ρ : Type} [Inhabited ρ] (env : Env ρ) (name : String)
    (c : Logging ρ) (w : World) (hv : (getLogLevel (some c)).2 = none)
    (ht : w.ToStderr = none ∨ w.ToStderr = some false) :
    ∃ r lvl toSyslog sels rest, Init env name (some c) w = some r ∧
      r.calls = Call.LogInit lvl "" toSyslog false sels :: rest ∧
      (toSyslog = true ↔ c.ToSyslog = some true) ∧
      ((∃ f, Call.SetToFile true f ∈ r.calls) ↔ (c.ToFiles = none ∨ c.ToFiles = some true)) := by
  have hT : flagToStderr w = false := flagToStderr_of_unset w ht
  have hF : initToFiles c w = true ↔ (c.ToFiles = none ∨ c.ToFiles = some true) := by
    simp only [initToFiles, hT, Bool.false_eq_true, if_false]
    rcases c.ToFiles with _ | _ | _ <;> simp
  have hS : initToSyslog c w = true ↔ c.ToSyslog = some true := by
    simp only [initToSyslog, hT, Bool.false_eq_true, if_false]
    rcases c.ToSyslog with _ | _ | _ <;> simp
  obtain ⟨rest, hcalls, hrest⟩ := initResult_calls env name c w
  refine ⟨_, initLevel c w, initToSyslog c w, initSelectors c w, rest,
    Init_eq env name c w hv, ?_, hS, ?_⟩
  · rw [hcalls]
    simp only [initLogInitCall, hT]
  · rw [← hF]
    constructor
    · rintro ⟨f, hf⟩
      rw [hcalls] at hf
      rcases List.mem_cons.1 hf with h | h
      · cases h
      · rcases hrest _ h with ⟨h1, _⟩ | h1 | ⟨_, _, h1 | h1⟩
        · exact h1
        · cases h1
        · cases h1
        · cases h1
    · intro h
      exact ⟨_, SetToFile_mem_initResult env name c w h⟩

/-- C7 on the zero config with no flag set: syslog off, the file sink activated. -/
theorem C7_sink_defaults_witness :
    ∃ r lvl sels rest, Init exampleEnv "agent" (some (configWithLevel "")) exampleWorld = some r ∧
      r.calls = Call.LogInit lvl "" false false sels :: rest ∧
      ∃ f, Call.SetToFile true f ∈ r.calls := by
  obtain ⟨r, lvl, ts, sels, rest, h1, h2, h3, h4⟩ :=
    C7_sink_defaults exampleEnv "agent" (configWithLevel "") exampleWorld (by decide) (Or.inl rfl)
  have hts : ts = false := by
    cases ts
    · rfl
    · exact absurd (h3.1 rfl) (by decide)
  rw [hts] at h2
  exact ⟨r, lvl, sels, rest, h1, h2, h4.2 (Or.inl rfl)⟩

/-- C8 (file defaults): whenever `Init` on a non-nil config calls `SetToFile(true, f)`, the
rotator `f` is what `config.Files` holds afterwards; its `Path` is the original
`config.Files.Path` if that was set and non-empty and `Resolve(Logs, "")` otherwise, its `Name`
the original `config.Files.Name` if set and non-empty and the process name otherwise, and its
other fields are those of the original rotator (the zero value when `config.Files` was nil). -/
theorem C8_file_defaults {ρ : Type} [Inhabited ρ] (env : Env ρ) (name : String)
    (c : Logging ρ) (w : World) (r : InitResult ρ) (f : FileRotator ρ)
    (h : Init env name (some c) w = some r) (hf : Call.SetToFile true f ∈ r.calls) :
    r.config.Files = some f ∧
    f.Path = (match c.Files with
      | some o => if o.Path = "" then env.defaultFilePath else o.Path
      | none => env.defaultFilePath) ∧
    f.Name = (match c.Files with
      | some o => if o.Name = "" then name else o.Name
      | none => name) ∧
    f.Rotation = (match c.Files with
      | some o => o.Rotation
      | none => default) := by
  by_cases hv : (getLogLevel (some c)).2 = none
  · rw [Init_eq env name c w hv] at h
    cases h
    obtain ⟨rest, hcalls, hrest⟩ := initResult_calls env name c w
    rw [hcalls] at hf
    rcases List.mem_cons.1 hf with h1 | h1
    · cases h1
    · rcases hrest _ h1 with ⟨hF, h2⟩ | h2 | ⟨_, _, h2 | h2⟩
      · cases h2
        refine ⟨?_, ?_, ?_, ?_⟩
        · rw [initResult_config]
          simp only [initConfig, hF, if_true]
        · unfold initFiles
          cases c.Files <;> rfl
        · unfold initFiles
          cases c.Files <;> rfl
        · unfold initFiles
          cases c.Files <;> rfl
      · cases h2
      · cases h2
      · cases h2
  · rw [Init_level_error env name c w hv] at h
    cases h
    cases hf

/-- C8 on a config whose `Files` has the path `/custom` and no name: the path is kept, the
name becomes the process name. -/
theorem C8_file_defaults_witness :
    ∃ r, Init exampleEnv "agent" (some customFilesConfig) exampleWorld = some r ∧
      Call.SetToFile true { Path := "/custom", Name := "agent", Rotation := () } ∈ r.calls ∧
      r.config.Files = some { Path := "/custom", Name := "agent", Rotation := () } :=
  ⟨initResult exampleEnv "agent" customFilesConfig exampleWorld,
   Init_eq exampleEnv "agent" customFilesConfig exampleWorld (by decide), by decide,
   (C8_file_defaults exampleEnv "agent" customFilesConfig exampleWorld
     (initResult exampleEnv "agent" customFilesConfig exampleWorld)
     { Path := "/custom", Name := "agent", Rotation := () }
     (Init_eq exampleEnv "agent" customFilesConfig exampleWorld (by decide)) (by decide)).1⟩

/-- C9, at the nil config: `getLogLevel` accepts a nil config, but `Init` dereferences `config`
at line 50 (`config.JSON`) before it calls `getLogLevel`, and faults, whatever the environment,
the name and the package variables. On the zero config it resolves the defaults: level
`LOG_INFO`, no selectors, syslog off, the file sink activated, the console turned off. -/
theorem C9_Init_nil_config_faults {ρ : Type} [Inhabited ρ] (env : Env ρ) (name : String)
    (w : World) :
    getLogLevel (none : Option (Logging ρ)) = (LOG_INFO, none) ∧
    Init env name (none : Option (Logging ρ)) w = none ∧
    (Init exampleEnv "agent" (some (configWithLevel "")) exampleWorld).map (fun r => r.calls) =
      some [Call.LogInit LOG_INFO "" false false [],
        Call.SetToFile true { Path := "/var/log", Name := "agent", Rotation := () },
        Call.SetToStderr false "", Call.Debug "log" "Disable stderr logging"] :=
  ⟨rfl, rfl, by decide⟩

/-- C10: on a non-nil config `Init` returns. If `config.Level` is non-empty and not in the
map, the error is the one of `getLogLevel`, "unknown log level: " followed by `config.Level`
as supplied. Otherwise the error is the one `SetToFile` returns when `Init` calls it, and nil
when `Init` does not call it. So `Init` returns an error exactly when the level is unknown or
`SetToFile` is called and the file transport (`env.fileError`) refuses the rotator. -/
theorem C10_Init_error {ρ : Type} [Inhabited ρ] (env : Env ρ) (name : String)
    (c : Logging ρ) (w : World) :
    ∃ r, Init env name (some c) w = some r ∧
      ((c.Level ≠ "" ∧ levels.lookup (strings_ToLower c.Level) = none) →
        r.err = some ("unknown log level: " ++ c.Level) ∧ r.err = (getLogLevel (some c)).2) ∧
      (¬ (c.Level ≠ "" ∧ levels.lookup (strings_ToLower c.Level) = none) →
        (∀ f, Call.SetToFile true f ∈ r.calls →
          ∀ w1 : World, r.err = (SetToFile env true f w1).2) ∧
        ((∀ f, Call.SetToFile true f ∉ r.calls) → r.err = none)) ∧
      (r.err ≠ none ↔
        (c.Level ≠ "" ∧ levels.lookup (strings_ToLower c.Level) = none) ∨
        ∃ f, Call.SetToFile true f ∈ r.calls ∧ env.fileError f ≠ none) := by
  have hsnd := getLogLevel_snd c
  by_cases hu : c.Level ≠ "" ∧ levels.lookup (strings_ToLower c.Level) = none
  · rw [if_pos hu] at hsnd
    have hv : (getLogLevel (some c)).2 ≠ none := by rw [hsnd]; simp
    refine ⟨_, Init_level_error env name c w hv, ?_, ?_, ?_⟩
    · intro _
      exact ⟨hsnd, rfl⟩
    · intro h
      exact absurd hu h
    · simp only [hsnd, ne_eq, reduceCtorEq, not_false_eq_true, true_iff]
      exact Or.inl hu
  · rw [if_neg hu] at hsnd
    refine ⟨_, Init_eq env name c w hsnd, ?_, ?_, ?_⟩
    · intro h
      exact absurd h hu
    · intro _
      constructor
      · intro f hf
        rw [SetToFile_mem_initResult_iff] at hf
        intro w1
        rw [initResult_err, hf.1, hf.2, SetToFile_snd]
        rfl
      · intro hno
        rw [initResult_err]
        cases hF : initToFiles c w
        · rfl
        · exact absurd (SetToFile_mem_initResult env name c w hF) (hno _)
    · rw [initResult_err]
      constructor
      · intro he
        cases hF : initToFiles c w
        · rw [hF] at he
          exact absurd rfl he
        · rw [hF] at he
          exact Or.inr ⟨_, SetToFile_mem_initResult env name c w hF, he⟩
      · rintro (h | ⟨f, hf, he⟩)
        · exact absurd h hu
        · rw [SetToFile_mem_initResult_iff] at hf
          rw [hf.1, ← hf.2]
          exact he

/-- C10 at the level `"Verbose"` (unknown, reported in its original case), at a rotator the
file transport refuses, and at the zero config. -/
theorem C10_Init_error_witness :
    (Init exampleEnv "agent" (some (configWithLevel "Verbose")) exampleWorld).map (fun r => r.err) =
      some (some "unknown log level: Verbose") ∧
    (Init exampleEnv "agent"
      (some { configWithLevel "" with Files := some { Path := "/ro", Name := "", Rotation := () } })
      exampleWorld).map (fun r => r.err) = some (some "read-only file system") ∧
    (Init exampleEnv "agent" (some (configWithLevel "")) exampleWorld).map (fun r => r.err) =
      some none := by
  obtain ⟨r, h1, h2, _, _⟩ :=
    C10_Init_error exampleEnv "agent" (configWithLevel "Verbose") exampleWorld
  refine ⟨?_, by decide, by decide⟩
  rw [h1]
  exact congrArg some (h2 (by decide)).1

/-- C11: when `config.Level` is non-empty and not in the map, `Init` returns the error of
`getLogLevel` at line 55 having made no call at all (so none of `LogInit`, `SetToFile`,
`SetToStderr`), the config object is as it was, field by field, and so are the flag variables
`ToStderr` and `DebugSelectorsStr`. -/
theorem C11_unknown_level_stops {ρ : Type} [Inhabited ρ] (env : Env ρ) (name : String)
    (c : Logging ρ) (w : World) (hne : c.Level ≠ "")
    (hl : levels.lookup (strings_ToLower c.Level) = none) :
    ∃ r, Init env name (some c) w = some r ∧ r.err = some ("unknown log level: " ++ c.Level) ∧
      r.calls = [] ∧ r.config = c ∧
      r.world.ToStderr = w.ToStderr ∧ r.world.DebugSelectorsStr = w.DebugSelectorsStr := by
  have hsnd := getLogLevel_snd c
  rw [if_pos ⟨hne, hl⟩] at hsnd
  have hv : (getLogLevel (some c)).2 ≠ none := by rw [hsnd]; simp
  exact ⟨_, Init_level_error env name c w hv, hsnd, rfl, rfl, rfl, rfl⟩

/-- C11 at the level `"Verbose"`, with both flags set. -/
theorem C11_unknown_level_stops_witness :
    ∃ r, Init exampleEnv "agent" (some (configWithLevel "Verbose"))
        { exampleWorld with ToStderr := some true, DebugSelectorsStr := some "auth" } = some r ∧
      r.err = some "unknown log level: Verbose" ∧ r.calls = [] ∧
      r.config = configWithLevel "Verbose" ∧
      r.world.ToStderr = some true ∧ r.world.DebugSelectorsStr = some "auth" :=
  C11_unknown_level_stops exampleEnv "agent" (configWithLevel "Verbose")
    { exampleWorld with ToStderr := some true, DebugSelectorsStr := some "auth" }
    (by decide) (by decide)

/-- C12 (selector write-back): on a non-nil config with an accepted level, `Init` returns,
calls `LogInit` once, first, with some selector list, and afterwards `config.Selectors` is
that list when it is not empty and is what the caller supplied when it is empty. -/
theorem C12_selector_write_back {ρ : Type} [Inhabited ρ] (env : Env ρ) (name : String)
    (c : Logging ρ) (w : World) (hv : (getLogLevel (some c)).2 = none) :
    ∃ r lvl toSyslog toStderr sels rest, Init env name (some c) w = some r ∧
      r.calls = Call.LogInit lvl "" toSyslog toStderr sels :: rest ∧
      (∀ e ∈ rest, ∀ l p a b s, e ≠ Call.LogInit l p a b s) ∧
      (sels.length > 0 → r.config.Selectors = sels) ∧
      (sels.length = 0 → r.config.Selectors = c.Selectors) := by
  obtain ⟨rest, hcalls, hrest⟩ := initResult_calls env name c w
  refine ⟨_, initLevel c w, initToSyslog c w, flagToStderr w, initSelectors c w, rest,
    Init_eq env name c w hv, hcalls, ?_, ?_, ?_⟩
  · intro e he
    exact ne_LogInit_of_rest e _ _ _ _ (hrest e he) (fun _ _ _ _ _ h => by cases h)
  · intro h
    rw [initResult_config]
    simp only [initConfig, h, if_true]
  · intro h
    rw [initResult_config]
    simp only [initConfig, h, gt_iff_lt, Nat.lt_irrefl, if_false]

/-- C12 after Rule A (`["*"]` written back), after Rule B (the tokens of the flag written
back), and on the zero config (the empty list left). -/
theorem C12_selector_write_back_witness :
    (Init exampleEnv "agent" (some (configWithLevel "debug")) exampleWorld).map
        (fun r => r.config.Selectors) = some ["*"] ∧
    (Init exampleEnv "agent" (some (configWithLevel "info"))
        { exampleWorld with DebugSelectorsStr := some "auth,net" }).map
        (fun r => r.config.Selectors) = some ["auth", "net"] ∧
    (∃ r lvl toSyslog toStderr rest,
      Init exampleEnv "agent" (some (configWithLevel "")) exampleWorld = some r ∧
      r.calls = Call.LogInit lvl "" toSyslog toStderr [] :: rest ∧ r.config.Selectors = []) := by
  refine ⟨by decide, by decide, ?_⟩
  obtain ⟨r, lvl, ts, te, sels, rest, h1, h2, _, _, h5⟩ :=
    C12_selector_write_back exampleEnv "agent" (configWithLevel "") exampleWorld (by decide)
  have hr : r = initResult exampleEnv "agent" (configWithLevel "") exampleWorld := by
    have := Init_eq exampleEnv "agent" (configWithLevel "") exampleWorld (by decide)
    rw [h1] at this
    exact Option.some.inj this
  have hs : sels = [] := by
    have h3 : (initResult exampleEnv "agent" (configWithLevel "") exampleWorld).calls.head? =
        some (Call.LogInit LOG_INFO "" false false []) := by decide
    rw [← hr, h2] at h3
    simp only [List.head?_cons, Option.some.injEq, Call.LogInit.injEq] at h3
    exact h3.2.2.2.2
  subst hs
  exact ⟨r, lvl, ts, te, rest, h1, h2, h5 rfl⟩

/-- C19 (frame): on every non-nil config `Init` returns and leaves `config.Level`,
`config.ToSyslog`, `config.ToFiles` and `config.JSON` as they were; when `config.ToFiles` is
set to false or the force-console flag is true it also leaves `config.Files` as it was. -/
theorem C19_config_frame {ρ : Type} [Inhabited ρ] (env : Env ρ) (name : String)
    (c : Logging ρ) (w : World) :
    ∃ r, Init env name (some c) w = some r ∧
      r.config.Level = c.Level ∧ r.config.ToSyslog = c.ToSyslog ∧
      r.config.ToFiles = c.ToFiles ∧ r.config.JSON = c.JSON ∧
      (c.ToFiles = some false ∨ w.ToStderr = some true → r.config.Files = c.Files) := by
  by_cases hv : (getLogLevel (some c)).2 = none
  · refine ⟨_, Init_eq env name c w hv, ?_, ?_, ?_, ?_, ?_⟩
    · rw [initResult_config]; rfl
    · rw [initResult_config]; rfl
    · rw [initResult_config]; rfl
    · rw [initResult_config]; rfl
    · intro h
      rw [initResult_config]
      simp only [initConfig, initToFiles_eq_false c w h, Bool.false_eq_true, if_false]
  · exact ⟨_, Init_level_error env name c w hv, rfl, rfl, rfl, rfl, fun _ => rfl⟩

/-- C19 on a config with `to_files` set to false and a rotator without path or name: the
rotator is left without them. -/
theorem C19_config_frame_witness :
    ∃ r, Init exampleEnv "agent"
        (some { customFilesConfig with ToFiles := some false, Level := "Error", JSON := true })
        exampleWorld = some r ∧
      r.config.Level = "Error" ∧ r.config.ToFiles = some false ∧ r.config.JSON = true ∧
      r.config.Files = some { Path := "/custom", Name := "", Rotation := () } := by
  obtain ⟨r, h1, h2, _, h4, h5, h6⟩ :=
    C19_config_frame exampleEnv "agent"
      { customFilesConfig with ToFiles := some false, Level := "Error", JSON := true }
      exampleWorld
  exact ⟨r, h1, h2, h4, h5, h6 (Or.inl rfl)⟩

/-- C13 (console override): with the force-console flag false, `SetStderr` calls
`SetToStderr(false, "")` and then `Debug("log", ...)`, and the console sink is off; with the
flag true it makes no call and leaves the package variables as they are. After every `Init`
that returns no error the console sink is on exactly when `*ToStderr` is true, which is
exactly when the flag was true at the call. -/
theorem C13_console_override {ρ : Type} [Inhabited ρ] :
    (∀ w : World, w.ToStderr = some false →
      (SetStderr w : Option (World × List (Call ρ))) =
        some (SetToStderr false "" w,
          [Call.SetToStderr false "", Call.Debug "log" "Disable stderr logging"]) ∧
      (SetToStderr false "" w)._log.toStderr = false) ∧
    (∀ w : World, w.ToStderr = some true →
      (SetStderr w : Option (World × List (Call ρ))) = some (w, [])) ∧
    (∀ (env : Env ρ) (name : String) (c : Logging ρ) (w : World) (r : InitResult ρ),
      Init env name (some c) w = some r → r.err = none →
        (r.world._log.toStderr = true ↔ r.world.ToStderr = some true) ∧
        (r.world.ToStderr = some true ↔ w.ToStderr = some true)) := by
  refine ⟨fun w h => ⟨?_, rfl⟩, fun w h => ?_, ?_⟩
  · rw [SetStderr_of_flag w false h]
    rfl
  · rw [SetStderr_of_flag w true h]
    rfl
  · intro env name c w r h he
    by_cases hv : (getLogLevel (some c)).2 = none
    · rw [Init_eq env name c w hv] at h
      cases h
      rw [initResult_world_toStderr, (initResult_world_flags env name c w).1]
      constructor
      · constructor
        · intro h1
          rw [h1]
        · intro h1
          exact Option.some.inj h1
      · constructor
        · intro h1
          have h2 : flagToStderr w = true := Option.some.inj h1
          unfold flagToStderr at h2
          cases hw : w.ToStderr with
          | none => rw [hw] at h2; cases h2
          | some t => rw [hw] at h2; rw [show t = true from h2]
        · intro h1
          rw [flagToStderr_of_flag w true h1]
    · rw [Init_level_error env name c w hv] at h
      cases h
      exact absurd he hv

/-- C13 at the zero config: with no flag the console ends off, with the flag true it ends
on. -/
theorem C13_console_override_witness :
    (∃ r, Init exampleEnv "agent" (some (configWithLevel "")) exampleWorld = some r ∧
      r.world._log.toStderr = false) ∧
    (∃ r, Init exampleEnv "agent" (some (configWithLevel ""))
        { exampleWorld with ToStderr := some true } = some r ∧
      r.world._log.toStderr = true) := by
  have h := (@C13_console_override Unit _).2.2
  have e1 := Init_eq exampleEnv "agent" (configWithLevel "") exampleWorld (by decide)
  have e2 := Init_eq exampleEnv "agent" (configWithLevel "")
    { exampleWorld with ToStderr := some true } (by decide)
  have h1 := h exampleEnv "agent" (configWithLevel "") exampleWorld _ e1 (by decide)
  have h2 := h exampleEnv "agent" (configWithLevel "") { exampleWorld with ToStderr := some true }
    _ e2 (by decide)
  refine ⟨⟨_, e1, ?_⟩, ⟨_, e2, h2.1.2 (h2.2.2 rfl)⟩⟩
  cases hb : (initResult exampleEnv "agent" (configWithLevel "")
      exampleWorld).world._log.toStderr
  · rfl
  · exact absurd (h1.2.1 (h1.1.1 hb)) (by decide)

/-- C14, at the zero config with the force-console flag unset (and for every config with an
accepted level when the flag is unset or false): `Init` returns with the console sink off.
It passes `toStderr = false` to `LogInit`, and when `SetToFile` does not fail it calls
`SetStderr` itself (line 133), which calls `SetToStderr(false, "")`. -/
theorem C14_console_off_after_Init :
    ((Init exampleEnv "agent" (some (configWithLevel "")) exampleWorld).map
      (fun r => (r.err, r.world._log.toStderr, r.calls)) =
      some (none, false,
        [Call.LogInit LOG_INFO "" false false [],
         Call.SetToFile true { Path := "/var/log", Name := "agent", Rotation := () },
         Call.SetToStderr false "", Call.Debug "log" "Disable stderr logging"])) ∧
    (∀ (env : Env Unit) (name : String) (c : Logging Unit) (w : World),
      (getLogLevel (some c)).2 = none → (w.ToStderr = none ∨ w.ToStderr = some false) →
      ∃ r, Init env name (some c) w = some r ∧ r.world._log.toStderr = false ∧
        (r.err = none → Call.SetToStderr false "" ∈ r.calls)) := by
  refine ⟨by decide, ?_⟩
  intro env name c w hv ht
  have hT := flagToStderr_of_unset w ht
  refine ⟨_, Init_eq env name c w hv, ?_, ?_⟩
  · rw [initResult_world_toStderr, hT]
  · intro he
    rw [initResult_err] at he
    unfold initResult initTail
    cases hF : initToFiles c w
    · simp [hT, initLogInit, flagToStderr_LogInit, flagToStderr_mk]
    · rw [hF] at he
      simp only [if_true] at he ⊢
      rw [he]
      simp [hT, initLogInit, flagToStderr_LogInit, flagToStderr_mk, flagToStderr_SetToFile]

/-- C17: on a non-nil config with an accepted level `Init` returns and calls `LogInit` once,
first. If the level it passes is `LOG_DEBUG`, the selector list it passes has at least one
element and is `config.Selectors` afterwards. The level is `LOG_DEBUG` exactly when
`config.Level` lower-cases to "debug" or the command-line selector string is set and not
empty. -/
theorem C17_debug_has_selectors {ρ : Type} [Inhabited ρ] (env : Env ρ) (name : String)
    (c : Logging ρ) (w : World) (hv : (getLogLevel (some c)).2 = none) :
    ∃ r lvl toSyslog toStderr sels rest, Init env name (some c) w = some r ∧
      r.calls = Call.LogInit lvl "" toSyslog toStderr sels :: rest ∧
      (∀ e ∈ rest, ∀ l p a b s, e ≠ Call.LogInit l p a b s) ∧
      (lvl = LOG_DEBUG → sels.length ≥ 1 ∧ r.config.Selectors = sels) ∧
      (lvl = LOG_DEBUG ↔
        strings_ToLower c.Level = "debug" ∨ ∃ d, w.DebugSelectorsStr = some d ∧ d ≠ "") := by
  obtain ⟨rest, hcalls, hrest⟩ := initResult_calls env name c w
  have hflag : len (flagSelectors w) > 0 ↔ ∃ d, w.DebugSelectorsStr = some d ∧ d ≠ "" := by
    rw [len_pos_iff]
    unfold flagSelectors
    cases w.DebugSelectorsStr with
    | none => simp
    | some d => simp
  have hlen : initLevel c w = LOG_DEBUG → (initSelectors c w).length ≥ 1 := by
    intro h
    unfold initLevel at h
    unfold initSelectors
    by_cases hd : len (flagSelectors w) > 0
    · rw [if_pos hd]
      exact strings_Split_length_pos _ _
    · rw [if_neg hd] at h ⊢
      rw [if_pos h]
      split
      · simp
      · omega
  refine ⟨_, initLevel c w, initToSyslog c w, flagToStderr w, initSelectors c w, rest,
    Init_eq env name c w hv, hcalls, ?_, ?_, ?_⟩
  · intro e he
    exact ne_LogInit_of_rest e _ _ _ _ (hrest e he) (fun _ _ _ _ _ h => by cases h)
  · intro h
    refine ⟨hlen h, ?_⟩
    rw [initResult_config]
    have : (initSelectors c w).length > 0 := hlen h
    simp only [initConfig, this, if_true]
  · rw [← hflag, ← getLogLevel_debug_iff c hv]
    unfold initLevel
    by_cases hd : len (flagSelectors w) > 0
    · simp only [hd, if_true, or_true]
    · simp only [hd, if_false, or_false]

/-- C17 at the flag `","` with `Level` `"info"`: the level is `LOG_DEBUG` and the two empty
tokens are passed and written back. -/
theorem C17_debug_has_selectors_witness :
    (Init exampleEnv "agent" (some (configWithLevel "info"))
        { exampleWorld with DebugSelectorsStr := some "," }).map
        (fun r => (r.calls.head?, r.config.Selectors)) =
      some (some (Call.LogInit LOG_DEBUG "" false false ["", ""]), ["", ""]) ∧
    (∃ r lvl toSyslog toStderr sels rest,
      Init exampleEnv "agent" (some (configWithLevel "info"))
        { exampleWorld with DebugSelectorsStr := some "," } = some r ∧
      r.calls = Call.LogInit lvl "" toSyslog toStderr sels :: rest ∧ lvl = LOG_DEBUG ∧
      sels.length ≥ 1) := by
  refine ⟨by decide, ?_⟩
  obtain ⟨r, lvl, ts, te, sels, rest, h1, h2, _, h4, h5⟩ :=
    C17_debug_has_selectors exampleEnv "agent" (configWithLevel "info")
      { exampleWorld with DebugSelectorsStr := some "," } (by decide)
  have hl : lvl = LOG_DEBUG := h5.2 (Or.inr ⟨",", rfl, by decide⟩)
  exact ⟨r, lvl, ts, te, sels, rest, h1, h2, hl, (h4 hl).1⟩

/-! ## The early phase: `HandleFlags` -/

/-- C16 (early phase): with `DebugSelectorsStr` set to `s` and a `parseSelectors` that meets
the Selector Parser contract, `HandleFlags` returns nil, turns the console on
(`toStderr = true`, a logger on stderr with the process name), stores the parsed set and
all-flag, and sets the level to `LOG_DEBUG` when the comma-split of `s` has a `"*"` token or a
non-empty token, leaving the level as it was otherwise. For `s = ""` the level is left as it
was, the set is empty and the all-flag is false. -/
theorem C16_HandleFlags {ρ : Type} (env : Env ρ) (name : String) (w : World) (s : String)
    (hs : w.DebugSelectorsStr = some s) (hc : SelectorParserContract env.parseSelectors) :
    ∃ w1, HandleFlags env name w = some (w1, none) ∧
      w1._log.toStderr = true ∧ w1._log.logger = some name ∧
      w1._log.selectors = (env.parseSelectors (strings_Split s ',')).1 ∧
      w1._log.debugAllSelectors = (env.parseSelectors (strings_Split s ',')).2 ∧
      (("*" ∈ strings_Split s ',' ∨ ∃ x ∈ strings_Split s ',', x ≠ "") →
        w1._log.level = LOG_DEBUG) ∧
      (¬ ("*" ∈ strings_Split s ',' ∨ ∃ x ∈ strings_Split s ',', x ≠ "") →
        w1._log.level = w._log.level) ∧
      (s = "" → w1._log.level = w._log.level ∧ w1._log.selectors = [] ∧
        w1._log.debugAllSelectors = false) := by
  have htest := debug_test_iff env.parseSelectors hc (strings_Split s ',')
  unfold HandleFlags
  rw [hs]
  simp only [Option.some_bind]
  refine ⟨_, rfl, rfl, rfl, rfl, rfl, ?_, ?_, ?_⟩
  · intro h
    show (if _ then LOG_DEBUG else _) = LOG_DEBUG
    rw [if_pos (htest.2 h)]
  · intro h
    show (if _ then LOG_DEBUG else _) = _
    rw [if_neg (fun h1 => h (htest.1 h1))]
  · intro he
    subst he
    have hsplit : strings_Split "" ',' = [""] := by decide
    have hno : ¬ ("*" ∈ strings_Split "" ',' ∨ ∃ x ∈ strings_Split "" ',', x ≠ "") := by
      rw [hsplit]
      simp
    obtain ⟨h1, h2⟩ := hc (strings_Split "" ',')
    have hstar : "*" ∉ strings_Split "" ',' := fun h => hno (Or.inl h)
    refine ⟨?_, ?_, ?_⟩
    · show (if _ then LOG_DEBUG else _) = _
      rw [if_neg (fun h1 => hno (htest.1 h1))]
    · show (env.parseSelectors (strings_Split "" ',')).1 = []
      rw [List.eq_nil_iff_forall_not_mem]
      intro x hx
      have := (h2 hstar x).1 hx
      rw [hsplit] at this
      simp at this
    · show (env.parseSelectors (strings_Split "" ',')).2 = false
      cases hb : (env.parseSelectors (strings_Split "" ',')).2
      · rfl
      · exact absurd (h1.1 hb) hstar

/-- C16 at the selector strings `"auth,net"` and `""`, from a logger at level `LOG_INFO`. -/
theorem C16_HandleFlags_witness :
    (HandleFlags exampleEnv "agent"
        { exampleWorld with DebugSelectorsStr := some "auth,net" }).map
        (fun r => (r.1._log.level, r.1._log.toStderr, r.1._log.selectors,
          r.1._log.debugAllSelectors, r.2)) =
      some (LOG_DEBUG, true, ["auth", "net"], false, none) ∧
    (∃ w1, HandleFlags exampleEnv "agent"
        { _log := { logger_JSON false with level := LOG_INFO }, ToStderr := none,
          DebugSelectorsStr := some "" } = some (w1, none) ∧
      w1._log.level = LOG_INFO ∧ w1._log.selectors = [] ∧ w1._log.debugAllSelectors = false) := by
  refine ⟨by decide, ?_⟩
  obtain ⟨w1, h1, _, _, _, _, _, _, h8⟩ :=
    C16_HandleFlags exampleEnv "agent"
      { _log := { logger_JSON false with level := LOG_INFO }, ToStderr := none,
        DebugSelectorsStr := some "" } "" rfl specParseSelectors_contract
  exact ⟨w1, h1, h8 rfl⟩

/-- C18 (nil-safety of the flags): on a non-nil config with an accepted level `Init` does not
fault whatever the two flag pointers are; when it returns both are set (to the value they had,
or to `false` and `""` when they were nil), so `SetStderr` on the package variables it leaves
does not fault; and `Init` on a nil flag is `Init` on the flag set to `false`, respectively to
the empty string. -/
theorem C18_flag_nil_safety {ρ : Type} [Inhabited ρ] (env : Env ρ) (name : String)
    (c : Logging ρ) (w : World) (hv : (getLogLevel (some c)).2 = none) :
    ∃ r, Init env name (some c) w = some r ∧
      r.world.ToStderr = some (flagToStderr w) ∧
      r.world.DebugSelectorsStr = some (flagSelectors w) ∧
      (∃ res, (SetStderr r.world : Option (World × List (Call ρ))) = some res) ∧
      Init env name (some c) { w with ToStderr := none } =
        Init env name (some c) { w with ToStderr := some false } ∧
      Init env name (some c) { w with DebugSelectorsStr := none } =
        Init env name (some c) { w with DebugSelectorsStr := some "" } := by
  obtain ⟨h1, h2⟩ := initResult_world_flags env name c w
  refine ⟨_, Init_eq env name c w hv, h1, h2, ⟨_, SetStderr_of_flag _ _ h1⟩, ?_, ?_⟩
  · rw [Init_eq env name c _ hv, Init_eq env name c _ hv]
    exact congrArg some (initResult_congr env name c _ _ rfl rfl)
  · rw [Init_eq env name c _ hv, Init_eq env name c _ hv]
    exact congrArg some (initResult_congr env name c _ _ rfl rfl)

/-- C18 on the zero config with both flag pointers nil. -/
theorem C18_flag_nil_safety_witness :
    ∃ r, Init exampleEnv "agent" (some (configWithLevel "")) exampleWorld = some r ∧
      r.world.ToStderr = some false ∧ r.world.DebugSelectorsStr = some "" ∧
      ∃ res, (SetStderr r.world : Option (World × List (Call Unit))) = some res := by
  obtain ⟨r, h1, h2, h3, h4, _⟩ :=
    C18_flag_nil_safety exampleEnv "agent" (configWithLevel "") exampleWorld (by decide)
  exact ⟨r, h1, h2, h3, h4⟩

/-! ## Idempotence of the full phase -/

/-- C15 (idempotence): if `Init` on a non-nil config returns, then `Init` called again with
the same name and environment, on the config and the package variables the first call left,
returns the very same result: the same calls with the same arguments (level, toSyslog,
toStderr and selectors to `LogInit`, the same rotator to `SetToFile`), the same error, and
the config and the package variables as the first call left them. This holds whether or not
the first call returned an error. -/
theorem C15_Init_idempotent {ρ : Type} [Inhabited ρ] (env : Env ρ) (name : String)
    (c : Logging ρ) (w : World) (r1 : InitResult ρ)
    (h : Init env name (some c) w = some r1) :
    Init env name (some r1.config) r1.world = some r1 := by
  by_cases hv : (getLogLevel (some c)).2 = none
  · rw [Init_eq env name c w hv] at h
    cases h
    rw [initResult_config]
    have hv1 : (getLogLevel (some (initConfig env name c w))).2 = none := by
      rw [getLogLevel_congr c (initConfig env name c w) rfl]
      exact hv
    rw [Init_eq env name _ _ hv1]
    obtain ⟨h1, h2⟩ := flags_initResult_world env name c w
    rw [initResult_congr env name (initConfig env name c w) _ w h1 h2,
      initResult_initConfig]
  · rw [Init_level_error env name c w hv] at h
    cases h
    exact Init_level_error env name c _ hv

/-- C15 at `Level` `"debug"` with no selectors and no flag: the second call passes `["*"]`
again and is the first call's result. -/
theorem C15_Init_idempotent_witness :
    ∃ r1, Init exampleEnv "agent" (some (configWithLevel "debug")) exampleWorld = some r1 ∧
      r1.err = none ∧ r1.config.Selectors = ["*"] ∧
      Init exampleEnv "agent" (some r1.config) r1.world = some r1 :=
  ⟨initResult exampleEnv "agent" (configWithLevel "debug") exampleWorld,
   Init_eq exampleEnv "agent" (configWithLevel "debug") exampleWorld (by decide),
   by decide, by decide,
   C15_Init_idempotent exampleEnv "agent" (configWithLevel "debug") exampleWorld _
     (Init_eq exampleEnv "agent" (configWithLevel "debug") exampleWorld (by decide))⟩

end logp
